import Mathlib

/-!
Verification development for the markdown-to-PDF conversion pipeline
(`MarkdownConverter` in `src/root/app/converter.js`).

The JavaScript source is shallowly embedded over `Str := List Char`:
pure string manipulation (`extractMermaidDiagrams`, `detectDiagramType`,
the placeholder substitution loop of `processMarkdown`,
`encodeURIComponent` / `decodeURIComponent`) is translated to executable
Lean functions, and the effectful orchestration
(`generatePdf`, `convertToPdf`, `cleanup`) is modelled by explicit
state passing over a capability record whose fields stand for the
external effects (file system, puppeteer browser, in-page mermaid
renderer), each returning `Except` to model success or a thrown error.

Two external collaborators are deliberately abstract, since no verified
property depends on their text: the `marked` markdown-to-HTML transform
(a plain function parameter) and the fixed CSS/bootstrap text of
`wrapInHtmlDocument`.
-/

namespace MMPdf

/-- Strings are modelled as lists of unicode scalar values. -/
abbrev Str := List Char

/-- Coercion from Lean string literals into the model. -/
def strOf (s : String) : Str := s.data

/-- Test whether the first argument is an initial segment of the second. -/
def leadsWith : Str → Str → Bool
  | [], _ => true
  | _ :: _, [] => false
  | a :: as, b :: bs => a == b && leadsWith as bs

/-- Substring test, JavaScript `String.prototype.includes`. -/
def containsSub (needle : Str) : Str → Bool
  | [] => leadsWith needle []
  | c :: t => leadsWith needle (c :: t) || containsSub needle t

/-- Index of the first occurrence of `needle` in `hay`, JavaScript
`String.prototype.indexOf`, returning `none` when absent. -/
def findSub (needle : Str) : Str → Option Nat
  | [] => if leadsWith needle [] then some 0 else none
  | c :: t =>
    if leadsWith needle (c :: t) then some 0
    else (findSub needle t).map (· + 1)

/-- JavaScript `String.prototype.replace` with a plain-string pattern:
replace the first occurrence of `needle` by `repl`, or return the string
unchanged when `needle` does not occur.  (The replacement strings built by
the converter contain no `$`, so the special replacement patterns of
`replace` never fire and literal splicing is faithful.) -/
def replaceFirst (needle repl hay : Str) : Str :=
  match findSub needle hay with
  | some i => hay.take i ++ repl ++ hay.drop (i + needle.length)
  | none => hay

/-- First `some` produced by `f` over a list, in order. -/
def firstSome {α β : Type} (f : α → Option β) : List α → Option β
  | [] => none
  | a :: as =>
    match f a with
    | some b => some b
    | none => firstSome f as

/-- JavaScript whitespace (`\s` in a RegExp, also the set trimmed by
`String.prototype.trim`): tab, LF, VT, FF, CR, space, NBSP, Ogham space,
the U+2000 block, LS, PS, NNBSP, MMSP, ideographic space and BOM. -/
def isJsWhitespace (c : Char) : Bool :=
  let n := c.toNat
  (9 ≤ n && n ≤ 13) || n = 32 || n = 160 || n = 5760 ||
  (8192 ≤ n && n ≤ 8202) || n = 8232 || n = 8233 || n = 8239 ||
  n = 8287 || n = 12288 || n = 65279

/-- JavaScript `String.prototype.trim`. -/
def trim (s : Str) : Str :=
  ((s.dropWhile isJsWhitespace).reverse.dropWhile isJsWhitespace).reverse

/-- ASCII lower-casing of one character.  JavaScript `toLowerCase` applies
the full Unicode mapping; only the ASCII fragment is modelled because every
verified property reads the lower-cased text exclusively through ASCII
keyword searches, which the non-ASCII mappings cannot produce or destroy in
any way a claim observes. -/
def toLowerChar (c : Char) : Char :=
  if 65 ≤ c.toNat && c.toNat ≤ 90 then Char.ofNat (c.toNat + 32) else c

/-- Lower-casing of a string, `String.prototype.toLowerCase`. -/
def toLowerStr (s : Str) : Str := s.map toLowerChar

/-- First line of a string: `code.split('\n')[0]`. -/
def firstLine (s : Str) : Str := s.takeWhile (fun c => !(c == '\n'))

/-- Translation of `detectDiagramType(code)` (converter.js:220-238):
lower-cased trim of the first line of the raw block body, then a fixed
ordered chain of substring tests, first match winning. -/
def detectDiagramType (code : Str) : Str :=
  let fl := toLowerStr (trim (firstLine code))
  if containsSub (strOf "graph") fl || containsSub (strOf "flowchart") fl then strOf "flowchart"
  else if containsSub (strOf "sequence") fl then strOf "sequence"
  else if containsSub (strOf "class") fl then strOf "class"
  else if containsSub (strOf "state") fl then strOf "state"
  else if containsSub (strOf "er") fl then strOf "er"
  else if containsSub (strOf "journey") fl then strOf "journey"
  else if containsSub (strOf "gantt") fl then strOf "gantt"
  else if containsSub (strOf "pie") fl then strOf "pie"
  else if containsSub (strOf "gitgraph") fl then strOf "gitgraph"
  else if containsSub (strOf "mindmap") fl then strOf "mindmap"
  else if containsSub (strOf "timeline") fl then strOf "timeline"
  else if containsSub (strOf "zenuml") fl then strOf "zenuml"
  else if containsSub (strOf "sankey") fl then strOf "sankey"
  else strOf "unknown"

/-! ## Percent encoding (`encodeURIComponent` / `decodeURIComponent`) -/

/-- Characters that `encodeURIComponent` leaves unescaped:
`A-Z a-z 0-9 - _ . ! ~ * ' ( )` (ECMA-262 `uriUnescaped`). -/
def isUnreservedChar (c : Char) : Bool :=
  let n := c.toNat
  (65 ≤ n && n ≤ 90) || (97 ≤ n && n ≤ 122) || (48 ≤ n && n ≤ 57) ||
  n = 45 || n = 95 || n = 46 || n = 33 || n = 126 || n = 42 ||
  n = 39 || n = 40 || n = 41

/-- UTF-8 encoding of a unicode scalar value. -/
def utf8Bytes (n : Nat) : List Nat :=
  if n < 128 then [n]
  else if n < 2048 then [192 + n / 64, 128 + n % 64]
  else if n < 65536 then [224 + n / 4096, 128 + (n / 64) % 64, 128 + n % 64]
  else [240 + n / 262144, 128 + (n / 4096) % 64, 128 + (n / 64) % 64, 128 + n % 64]

/-- Upper-case hexadecimal digit, as produced by `encodeURIComponent`. -/
def hexDigitChar (x : Nat) : Char :=
  if x < 10 then Char.ofNat (48 + x) else Char.ofNat (55 + x)

/-- Percent-escape of one octet: `%XY`. -/
def percentByte (b : Nat) : Str := ['%', hexDigitChar (b / 16), hexDigitChar (b % 16)]

/-- Encoding of a single character: kept verbatim when unreserved,
otherwise every octet of its UTF-8 encoding is percent-escaped. -/
def encChar (c : Char) : Str :=
  if isUnreservedChar c then [c] else (utf8Bytes c.toNat).flatMap percentByte

/-- ECMA-262 `encodeURIComponent`, on well-formed strings. -/
def encodeURIComponent (s : Str) : Str := s.flatMap encChar

/-- Numeric value of one hexadecimal digit (either case accepted). -/
def hexVal (c : Char) : Option Nat :=
  let n := c.toNat
  if 48 ≤ n && n ≤ 57 then some (n - 48)
  else if 65 ≤ n && n ≤ 70 then some (n - 55)
  else if 97 ≤ n && n ≤ 102 then some (n - 87)
  else none

/-- First decoding pass: replace each `%XY` triple by its octet, keep
other characters; `none` models the `URIError` thrown on a malformed
escape. -/
def tokenize : Str → Option (List (Char ⊕ Nat))
  | [] => some []
  | c :: t =>
    if c = '%' then
      match t with
      | h :: l :: t2 =>
        match hexVal h, hexVal l with
        | some hi, some lo => (tokenize t2).map (fun r => Sum.inr (16 * hi + lo) :: r)
        | _, _ => none
      | _ => none
    else (tokenize t).map (fun r => Sum.inl c :: r)

/-- UTF-8 continuation octet. -/
def contByte (b : Nat) : Bool := 128 ≤ b && b ≤ 191

/-- Decode one scalar value from the head of the token stream, strictly:
a raw character passes through; octets form one UTF-8 sequence whose
length and continuation ranges are checked exactly (overlong forms,
surrogates, stray or missing continuations fail).  Returns the decoded
character and the remaining stream; `none` models `URIError`. -/
def decodeOneUtf8 : List (Char ⊕ Nat) → Option (Char × List (Char ⊕ Nat))
  | [] => none
  | Sum.inl c :: ts => some (c, ts)
  | Sum.inr b0 :: ts =>
    if b0 < 128 then some (Char.ofNat b0, ts)
    else if b0 < 194 then none
    else if b0 < 224 then
      match ts with
      | Sum.inr b1 :: ts2 =>
        if contByte b1 then some (Char.ofNat ((b0 - 192) * 64 + (b1 - 128)), ts2) else none
      | _ => none
    else if b0 < 240 then
      match ts with
      | Sum.inr b1 :: Sum.inr b2 :: ts3 =>
        if contByte b1 && contByte b2 then
          if 2048 ≤ (b0 - 224) * 4096 + (b1 - 128) * 64 + (b2 - 128) &&
             ((b0 - 224) * 4096 + (b1 - 128) * 64 + (b2 - 128) < 55296 ||
              57344 ≤ (b0 - 224) * 4096 + (b1 - 128) * 64 + (b2 - 128)) then
            some (Char.ofNat ((b0 - 224) * 4096 + (b1 - 128) * 64 + (b2 - 128)), ts3)
          else none
        else none
      | _ => none
    else if b0 < 245 then
      match ts with
      | Sum.inr b1 :: Sum.inr b2 :: Sum.inr b3 :: ts4 =>
        if contByte b1 && contByte b2 && contByte b3 then
          if 65536 ≤ (b0 - 240) * 262144 + (b1 - 128) * 4096 + (b2 - 128) * 64 + (b3 - 128) &&
             (b0 - 240) * 262144 + (b1 - 128) * 4096 + (b2 - 128) * 64 + (b3 - 128) ≤ 1114111 then
            some (Char.ofNat ((b0 - 240) * 262144 + (b1 - 128) * 4096 + (b2 - 128) * 64 + (b3 - 128)), ts4)
          else none
        else none
      | _ => none
    else none

/-- Second decoding pass: reassemble the whole token stream scalar by
scalar.  The fuel counter only makes the recursion structural: every
`decodeOneUtf8` step consumes at least one token, so fuel equal to the
stream length is never exhausted. -/
def assembleAux : Nat → List (Char ⊕ Nat) → Option Str
  | _, [] => some []
  | 0, _ :: _ => none
  | fuel + 1, tk :: ts =>
    match decodeOneUtf8 (tk :: ts) with
    | some (c, rest) => (assembleAux fuel rest).map (fun r => c :: r)
    | none => none

/-- Reassembly of percent-decoded octet runs into scalar values. -/
def assembleUtf8 (ts : List (Char ⊕ Nat)) : Option Str := assembleAux ts.length ts

/-- ECMA-262 `decodeURIComponent`; `none` models a thrown `URIError`. -/
def decodeURIComponent (s : Str) : Option Str :=
  match tokenize s with
  | some ts => assembleUtf8 ts
  | none => none

/-- Token stream of the encoding of one character. -/
def tokChar (c : Char) : List (Char ⊕ Nat) :=
  if isUnreservedChar c then [Sum.inl c] else (utf8Bytes c.toNat).map Sum.inr

/-! ## Diagram extraction (`extractMermaidDiagrams`)

The source scans with the global regex
`/```(?:mermaid|{[^}]*\.mermaid[^}]*})\s*\n([\s\S]*?)\n```/g`
(converter.js:200).  The functions below implement exactly the
backtracking semantics of that pattern: the two opening alternatives are
disjoint on the character after the backticks; the greedy `\s*`
followed by `\n` tries the newlines of the maximal whitespace run from
the last to the first; and the lazy body ends at the first later
occurrence of `"\n```"`. -/

/-- Match of the opening fence alternation at the head of `s`, returning
the number of characters consumed.  The pandoc alternative
`{[^}]*\.mermaid[^}]*}` matches iff a `\x7d` exists and `.mermaid` occurs
among the characters strictly between the braces, and always extends to
the first `\x7d`. -/
def matchOpening (s : Str) : Option Nat :=
  if leadsWith (strOf "```mermaid") s then some 10
  else if leadsWith (strOf "```\x7b") s then
    if ((s.drop 4).takeWhile (fun c => !(c == '\x7d'))).length = (s.drop 4).length then none
    else if containsSub (strOf ".mermaid") ((s.drop 4).takeWhile (fun c => !(c == '\x7d'))) then
      some (4 + ((s.drop 4).takeWhile (fun c => !(c == '\x7d'))).length + 1)
    else none
  else none

/-- Indices (descending) of the newlines inside the maximal whitespace
run at the head of `rest`; the order realises the greedy backtracking of
`\s*\n`. -/
def newlineIdxsDesc (rest : Str) : List Nat :=
  let run := rest.takeWhile isJsWhitespace
  ((List.range run.length).filter (fun k => run.get? k = some '\n')).reverse

/-- Match of `\s*\n([\s\S]*?)\n```` `` ``` `` against the head of `rest`:
for each candidate newline (greedily, from the last) the lazy body runs to
the first subsequent `"\n```"`.  Returns consumed length and the capture. -/
def tryMatchTail (rest : Str) : Option (Nat × Str) :=
  firstSome
    (fun k =>
      match findSub (strOf "\n```") (rest.drop (k + 1)) with
      | some off => some (k + 1 + off + 4, (rest.drop (k + 1)).take off)
      | none => none)
    (newlineIdxsDesc rest)

/-- Match of the whole diagram-fence regex at the head of `s`, returning
total consumed length and the captured body (`match[1]`). -/
def tryMatch (s : Str) : Option (Nat × Str) :=
  match matchOpening s with
  | none => none
  | some ol =>
    match tryMatchTail (s.drop ol) with
    | none => none
    | some (len, body) => some (ol + len, body)

/-- Structural worker of the scan, recursing on a fuel counter so that
the function reduces by kernel computation.  Every recursive call drops
at least one character (a successful match consumes its positive length,
a failed position advances by one), so fuel equal to the input length is
never exhausted and the fuel plays no semantic role. -/
def scanAux : Nat → Str → List (Str × Str)
  | 0, _ => []
  | _ + 1, [] => []
  | fuel + 1, c :: t =>
    match tryMatch (c :: t) with
    | some (len, body) => ((c :: t).take len, body) :: scanAux fuel ((c :: t).drop len)
    | none => scanAux fuel t

/-- Left-to-right global scan of `regex.exec` in a `while` loop
(converter.js:203): try a match at every position, and resume after the
end of each match.  Returns the list of `(match[0], match[1])` pairs. -/
def scanDiagrams (s : Str) : List (Str × Str) := scanAux s.length s

/-- One extracted diagram (converter.js:204-208): the full matched fence
text, the trimmed body, and the detected type of the raw body. -/
structure Diagram where
  fullMatch : Str
  code : Str
  type : Str
deriving DecidableEq

/-- Translation of `extractMermaidDiagrams(markdownContent)`
(converter.js:197-218). -/
def extractMermaidDiagrams (content : Str) : List Diagram :=
  (scanDiagrams content).map fun m => ⟨m.1, trim m.2, detectDiagramType m.2⟩

/-! ## Placeholder substitution (`processMarkdown`) -/

/-- The placeholder block inserted for one diagram (converter.js:180):
a blank-line-wrapped `div` of class `mermaid-diagram` whose
`data-mermaid` attribute holds the percent-encoded trimmed source. -/
def placeholderFor (code : Str) : Str :=
  strOf "\n\n<div class=\"mermaid-diagram\" data-mermaid=\"" ++
  encodeURIComponent code ++
  strOf "\">\n<div class=\"mermaid-placeholder\">Rendering diagram...</div>\n</div>\n\n"

/-- The placeholder-substitution loop of `processMarkdown`
(converter.js:177-184): for each extracted diagram in order, replace the
first occurrence of its `fullMatch` by its placeholder. -/
def substituteDiagrams (content : Str) : Str :=
  (extractMermaidDiagrams content).foldl
    (fun acc d => replaceFirst d.fullMatch (placeholderFor d.code) acc) content

/-- Translation of `processMarkdown(markdownContent)` (converter.js:169-195):
substitution, then the external `marked` transform (abstract parameter),
then the fixed document wrapper (abstract parameter, see the header). -/
def processMarkdown (markedFn : Str → Str) (wrapFn : Str → Str) (content : Str) : Str :=
  wrapFn (markedFn (substituteDiagrams content))

/-! ## The rendering environment (`generatePdf`, `convertToPdf`, `cleanup`)

The puppeteer browser, the loaded page and the in-page mermaid renderer
are external effects.  They are modelled by a capability record whose
fields give the outcome of each awaited call (`Except` models a resolved
or rejected promise), and by an explicit trace recording resource
acquisition, close attempts, teardown warnings and the emission call, so
that lifecycle properties are statable.  The debug overlay blocks
(converter.js:477-489 and 550-564) only run when a debug environment
variable is set and never affect control flow or results; they are not
modelled.  Timing bookkeeping (`timing`, `pdfTiming`) is likewise
observational only and not modelled. -/

/-- One `div.mermaid-diagram` element of the loaded page, as the render
loop sees it: its `data-mermaid` attribute and its current inner HTML. -/
structure Placeholder where
  dataMermaid : Str
  innerHTML : Str
deriving DecidableEq

/-- The initial inner HTML of every placeholder (converter.js:180). -/
def placeholderInner : Str :=
  strOf "<div class=\"mermaid-placeholder\">Rendering diagram...</div>"

/-- The inline error marker written into a failing diagram's element by
the in-page render loop (converter.js:524). -/
def errorMarker (msg : Str) : Str :=
  strOf "<div style=\"color: red; border: 1px solid red; padding: 10px;\">Mermaid Diagram Error: " ++
  msg ++ strOf "</div>"

/-- Message of the `URIError` thrown by `decodeURIComponent` on a
malformed attribute; it would reject the whole `page.evaluate` call. -/
def uriErrorMsg : Str := strOf "URIError: URI malformed"

/-- The per-diagram render loop executed inside the page
(converter.js:493-541): each element in document order has its attribute
decoded and rendered; success replaces the element's content with the
produced SVG and counts `rendered`, failure replaces it with the inline
error marker and counts `failed`.  Returns the final elements and the
two counters. -/
def renderLoop (render : Str → Except Str Str) :
    List Placeholder → Except Str (List Placeholder × Nat × Nat)
  | [] => .ok ([], 0, 0)
  | p :: ps =>
    match decodeURIComponent p.dataMermaid with
    | none => .error uriErrorMsg
    | some code =>
      match render code with
      | .ok svg =>
        match renderLoop render ps with
        | .ok (qs, r, f) => .ok ({ p with innerHTML := svg } :: qs, r + 1, f)
        | .error e => .error e
      | .error msg =>
        match renderLoop render ps with
        | .ok (qs, r, f) => .ok ({ p with innerHTML := errorMarker msg } :: qs, r, f + 1)
        | .error e => .error e

/-- Aggregate render outcome returned by the loop (`renderStatus`). -/
structure RenderStatus where
  total : Nat
  rendered : Nat
  failed : Nat

/-- The fixed options of the `page.pdf` call (converter.js:574-585). -/
structure PdfOptions where
  format : Str
  marginTop : Str
  marginRight : Str
  marginBottom : Str
  marginLeft : Str
  printBackground : Bool
  displayHeaderFooter : Bool

/-- The one `PdfOptions` value the converter ever uses: A4, uniform
one-inch margins, backgrounds printed, no header or footer. -/
def pdfOptions : PdfOptions :=
  ⟨strOf "A4", strOf "1in", strOf "1in", strOf "1in", strOf "1in", true, false⟩

/-- The fixed bound of the wait for `window.mermaid`
(converter.js:467-469). -/
def mermaidLoadTimeoutMs : Nat := 10000

/-- Outcomes of the awaited external calls of one conversion run.  Each
field models the resolution of the corresponding promise. -/
structure Caps where
  initMermaid : Except Str Unit
  readFile : Except Str Str
  marked : Str → Str
  wrapHtml : Str → Str
  launch : Except Str Unit
  newPage : Except Str Unit
  setContent : Str → Except Str Unit
  waitForMermaid : Nat → Except Str Unit
  renderDiagram : Str → Except Str Str
  pdf : PdfOptions → Except Str Unit
  closePage : Except Str Unit
  closeBrowser : Except Str Unit

/-- Observable trace of one conversion run: which resources were
acquired (`this.browser` / `this.page` assigned), which close calls were
attempted and succeeded, the warnings logged by teardown, the timeout
passed to the renderer wait, the final page elements, the aggregate
render status and whether the artifact was written. -/
structure Trace where
  browserSet : Bool := false
  pageSet : Bool := false
  pageCloseTried : Bool := false
  browserCloseTried : Bool := false
  pageClosed : Bool := false
  browserClosed : Bool := false
  teardownWarnings : List Str := []
  waitTimeoutUsed : Option Nat := none
  pagePlaceholders : List Placeholder := []
  renderStatus : Option RenderStatus := none
  pdfCalledWith : Option PdfOptions := none
  artifactWritten : Bool := false

/-- Error wrapper of `generatePdf`'s catch block (converter.js:610). -/
def pdfFailMsg (e : Str) : Str := strOf "PDF generation failed: " ++ e

/-- Translation of `generatePdf(htmlContent, outputPath)`
(converter.js:419-612): launch the browser, open a page, set the
content, wait (with the fixed timeout) for the mermaid capability,
run the per-diagram render loop, then request PDF serialization with the
fixed options; any failure is rethrown wrapped in the
`PDF generation failed` message.  `ps` is the list of
`div.mermaid-diagram` elements that `querySelectorAll` finds in the
loaded content. -/
def generatePdf (caps : Caps) (htmlContent : Str) (ps : List Placeholder) (st : Trace) :
    Except Str RenderStatus × Trace :=
  match caps.launch with
  | .error e => (.error (pdfFailMsg e), st)
  | .ok _ =>
    let st := { st with browserSet := true }
    match caps.newPage with
    | .error e => (.error (pdfFailMsg e), st)
    | .ok _ =>
      let st := { st with pageSet := true }
      match caps.setContent htmlContent with
      | .error e => (.error (pdfFailMsg e), st)
      | .ok _ =>
        let st := { st with waitTimeoutUsed := some mermaidLoadTimeoutMs }
        match caps.waitForMermaid mermaidLoadTimeoutMs with
        | .error e => (.error (pdfFailMsg e), st)
        | .ok _ =>
          match renderLoop caps.renderDiagram ps with
          | .error e => (.error (pdfFailMsg e), st)
          | .ok (qs, r, f) =>
            let status : RenderStatus := ⟨ps.length, r, f⟩
            let st := { st with
              pagePlaceholders := qs
              renderStatus := some status
              pdfCalledWith := some pdfOptions }
            match caps.pdf pdfOptions with
            | .error e => (.error (pdfFailMsg e), st)
            | .ok _ => (.ok status, { st with artifactWritten := true })

/-- Translation of `readMarkdownFile(filePath)` (converter.js:151-167):
a read failure is rethrown with a fixed prefix. -/
def readMarkdownFile (caps : Caps) : Except Str Str :=
  match caps.readFile with
  | .ok c => .ok c
  | .error e => .error (strOf "Failed to read markdown file: " ++ e)

/-- First half of `cleanup()` (converter.js:617-624): if a page was
assigned, attempt to close it, logging (never rethrowing) a failure. -/
def closePageStep (caps : Caps) (st : Trace) : Trace :=
  if st.pageSet then
    match caps.closePage with
    | .ok _ => { st with pageCloseTried := true, pageClosed := true }
    | .error e =>
      { st with pageCloseTried := true, teardownWarnings := st.teardownWarnings ++ [e] }
  else st

/-- Second half of `cleanup()` (converter.js:626-633): the same for the
browser. -/
def closeBrowserStep (caps : Caps) (st : Trace) : Trace :=
  if st.browserSet then
    match caps.closeBrowser with
    | .ok _ => { st with browserCloseTried := true, browserClosed := true }
    | .error e =>
      { st with browserCloseTried := true, teardownWarnings := st.teardownWarnings ++ [e] }
  else st

/-- Translation of `cleanup()` (converter.js:614-634): close the page,
then the browser; each failure is logged, never rethrown. -/
def cleanup (caps : Caps) (st : Trace) : Trace :=
  closeBrowserStep caps (closePageStep caps st)

/-- The `try` body of `convertToPdf` (converter.js:88-134): initialize
mermaid, read the file, process the markdown, generate the PDF.  The
elements the loaded page exposes to the render loop are the placeholders
the substitution inserted, one per extracted diagram, carrying the
percent-encoded trimmed source. -/
def convertBody (caps : Caps) : Except Str RenderStatus × Trace :=
  match caps.initMermaid with
  | .error e => (.error e, {})
  | .ok _ =>
    match readMarkdownFile caps with
    | .error e => (.error e, {})
    | .ok content =>
      let html := processMarkdown caps.marked caps.wrapHtml content
      let ps := (extractMermaidDiagrams content).map
        (fun d => ⟨encodeURIComponent d.code, placeholderInner⟩)
      generatePdf caps html ps {}

/-- Translation of `convertToPdf(inputPath, outputPath)`
(converter.js:75-149): the body runs inside `try`; the `catch` logs and
rethrows the same error; the `finally` always runs `cleanup`, whose own
errors never escape, so the body's outcome is returned unchanged. -/
def convertToPdf (caps : Caps) : Except Str RenderStatus × Trace :=
  ((convertBody caps).1, cleanup caps (convertBody caps).2)

/-- The node-side single-diagram renderer `renderMermaidDiagram(code)`
(converter.js:240-262).  It is defined by the converter but never called
by the pipeline (`processMarkdown` inserts placeholders and `generatePdf`
renders in-page); its error branch, unlike the in-page one, embeds the
diagram source in a `pre` block. -/
def renderMermaidDiagram (render : Str → Except Str Str) (code : Str) : Str :=
  match render code with
  | .ok svg => svg
  | .error msg =>
    strOf "<div style=\"border: 2px solid red; padding: 10px; color: red;\">\n        <strong>Mermaid Diagram Error:</strong><br>\n        " ++
    msg ++ strOf "<br>\n        <pre style=\"font-size: 10px; overflow: auto;\">" ++
    code ++ strOf "</pre>\n      </div>"

/-! ## Specification-side definitions used by refinement claims -/

/-- JavaScript `String.prototype.split('\n')`. -/
def splitLines : Str → List Str
  | [] => [[]]
  | c :: t =>
    if c = '\n' then [] :: splitLines t
    else
      match splitLines t with
      | l :: ls => (c :: l) :: ls
      | [] => [[c]]

/-- The spec's fixed ordered keyword table (§4.1): `graph`/`flowchart` →
flowchart; `sequence`; `class`; `state`; `er`; `journey`; `gantt`; `pie`;
`gitgraph`; `mindmap`; `timeline`; `zenuml`; `sankey`.  Output tags use
the converter's spellings of the same enumeration. -/
def specKeywordTable : List (Str × Str) :=
  [(strOf "graph", strOf "flowchart"), (strOf "flowchart", strOf "flowchart"),
   (strOf "sequence", strOf "sequence"), (strOf "class", strOf "class"),
   (strOf "state", strOf "state"), (strOf "er", strOf "er"),
   (strOf "journey", strOf "journey"), (strOf "gantt", strOf "gantt"),
   (strOf "pie", strOf "pie"), (strOf "gitgraph", strOf "gitgraph"),
   (strOf "mindmap", strOf "mindmap"), (strOf "timeline", strOf "timeline"),
   (strOf "zenuml", strOf "zenuml"), (strOf "sankey", strOf "sankey")]

/-- First matching keyword of an ordered table wins; otherwise `unknown`. -/
def classifyKeywords : List (Str × Str) → Str → Str
  | [], _ => strOf "unknown"
  | kv :: rest, line => if containsSub kv.1 line then kv.2 else classifyKeywords rest line

/-- Modelled from the spec (§4.1): classify "by inspecting the first
non-empty line of the body against a fixed ordered set of keyword
predicates", case-insensitive substring matching, first match winning,
else `unknown`. -/
def specReferenceClassifier (body : Str) : Str :=
  match (splitLines body).find? (fun l => !l.isEmpty) with
  | some l => classifyKeywords specKeywordTable (toLowerStr (trim l))
  | none => strOf "unknown"

/-- Modelled from the spec as amended by the counterexample to claim C3:
the converter inspects the first line of the body (trimmed,
lower-cased), not the first non-empty line. -/
def specFirstLineClassifier (body : Str) : Str :=
  classifyKeywords specKeywordTable (toLowerStr (trim (firstLine body)))

/-- Effect of one render-loop iteration on its element, assuming the
attribute decodes: success writes the SVG, failure writes the inline
error marker; the `data-mermaid` attribute is untouched either way. -/
def processOne (render : Str → Except Str Str) (p : Placeholder) : Placeholder :=
  match decodeURIComponent p.dataMermaid with
  | none => p
  | some code =>
    match render code with
    | .ok svg => { p with innerHTML := svg }
    | .error msg => { p with innerHTML := errorMarker msg }

/-- Whether the render capability succeeds on an element's decoded source. -/
def renderOk (render : Str → Except Str Str) (p : Placeholder) : Bool :=
  match decodeURIComponent p.dataMermaid with
  | none => false
  | some code =>
    match render code with
    | .ok _ => true
    | .error _ => false

/-! ## Concrete instances used by counterexamples and witnesses -/

/-- Fence text of the first diagram of `collidingInput` (source `A`). -/
def fence0 : Str := strOf "```mermaid\nA\n```"

/-- Fence text of the second diagram of `collidingInput`: its body is
exactly the placeholder text that diagram 0's substitution inserts
(percent-encoding of `A` is `A` itself). -/
def fence1 : Str := strOf "```mermaid" ++ placeholderFor (strOf "A") ++ strOf "\n```"

/-- A document on which the first-occurrence `String.replace` of the
substitution loop misfires.  The regex extracts `fence0` (at offset 10)
and `fence1` (at offset 30).  Replacing `fence0` turns the document into
`fence1 ++ fence1`: the leading stray `"```mermaid"`, the inserted
placeholder and the separator `"\n```"` together spell a fresh copy of
`fence1`'s text.  Diagram 1's `replace` then hits that copy at offset 0
instead of the real fence, deleting diagram 0's placeholder and leaving
diagram 1's original fence text verbatim in the processed document. -/
def collidingInput : Str := strOf "```mermaid" ++ fence0 ++ strOf "\n```" ++ fence1

/-- Demonstration document: one flowchart diagram and one broken diagram. -/
def demoContent : Str :=
  strOf "# t\n\n```mermaid\ngraph TD\nA-->B\n```\n\n```mermaid\nbad\n```"

/-- Demonstration render capability: fails exactly on the source `bad`. -/
def demoRender : Str → Except Str Str :=
  fun code => if code = strOf "bad" then .error (strOf "Parse error") else .ok (strOf "<svg/>")

/-- Fully successful demonstration capabilities. -/
def demoCaps : Caps :=
  ⟨.ok (), .ok demoContent, id, id, .ok (), .ok (), fun _ => .ok (), fun _ => .ok (),
   demoRender, fun _ => .ok (), .ok (), .ok ()⟩

/-- Capabilities whose renderer-availability wait times out. -/
def timeoutCaps : Caps :=
  ⟨.ok (), .ok demoContent, id, id, .ok (), .ok (), fun _ => .ok (),
   fun _ => .error (strOf "waiting for function failed: timeout 10000ms exceeded"),
   demoRender, fun _ => .ok (), .ok (), .ok ()⟩

/-- Capabilities whose PDF serialization fails. -/
def pdfFailCaps : Caps :=
  ⟨.ok (), .ok demoContent, id, id, .ok (), .ok (), fun _ => .ok (), fun _ => .ok (),
   demoRender, fun _ => .error (strOf "disk full"), .ok (), .ok ()⟩

/-- The placeholder elements of the demonstration document's loaded page. -/
def demoPlaceholders : List Placeholder :=
  (extractMermaidDiagrams demoContent).map
    (fun d => ⟨encodeURIComponent d.code, placeholderInner⟩)

/-! ## General lemmas about the string primitives -/

theorem leadsWith_self_append (l b : Str) : leadsWith l (l ++ b) = true := by
  induction l with
  | nil => rfl
  | cons c t ih => simp [leadsWith, ih]

theorem leadsWith_append_of_leadsWith {n s : Str} (b : Str) (h : leadsWith n s = true) :
    leadsWith n (s ++ b) = true := by
  induction n generalizing s with
  | nil => rfl
  | cons c t ih =>
    cases s with
    | nil => simp [leadsWith] at h
    | cons x xs =>
      simp only [leadsWith, Bool.and_eq_true] at h ⊢
      exact ⟨h.1, ih h.2⟩

theorem containsSub_of_leadsWith {n s : Str} (h : leadsWith n s = true) :
    containsSub n s = true := by
  cases s with
  | nil => exact h
  | cons c t => simp [containsSub, h]

theorem containsSub_cons (n : Str) (c : Char) {t : Str} (h : containsSub n t = true) :
    containsSub n (c :: t) = true := by
  simp [containsSub, h]

theorem containsSub_append_left {n a : Str} (b : Str) (h : containsSub n a = true) :
    containsSub n (a ++ b) = true := by
  induction a with
  | nil =>
    simp only [containsSub] at h
    exact containsSub_of_leadsWith (leadsWith_append_of_leadsWith b h)
  | cons c t ih =>
    simp only [containsSub, Bool.or_eq_true] at h
    rcases h with h | h
    · exact containsSub_of_leadsWith (leadsWith_append_of_leadsWith b h)
    · exact containsSub_cons _ _ (ih h)

theorem containsSub_append_right (n : Str) {b : Str} (a : Str) (h : containsSub n b = true) :
    containsSub n (a ++ b) = true := by
  induction a with
  | nil => exact h
  | cons c t ih => exact containsSub_cons _ _ ih

theorem containsSub_sandwich (n a b : Str) : containsSub n (a ++ (n ++ b)) = true :=
  containsSub_append_right n a (containsSub_of_leadsWith (leadsWith_self_append n b))

theorem containsSub_tailNeedle {c : Char} {w s : Str} (h : containsSub (c :: w) s = true) :
    containsSub w s = true := by
  induction s with
  | nil => simp [containsSub, leadsWith] at h
  | cons x t ih =>
    simp only [containsSub, Bool.or_eq_true] at h ⊢
    rcases h with h | h
    · simp only [leadsWith, Bool.and_eq_true] at h
      exact Or.inr (containsSub_of_leadsWith h.2)
    · exact Or.inr (ih h)

theorem length_filter_add_length_filter_not {α : Type} (p : α → Bool) (l : List α) :
    (l.filter p).length + (l.filter (fun a => !(p a))).length = l.length := by
  induction l with
  | nil => rfl
  | cons c t ih =>
    by_cases h : p c = true
    · simp [List.filter, h, ih]
      omega
    · simp only [Bool.not_eq_true] at h
      simp [List.filter, h, ih]
      omega

/-! ## Characterisation of the render loop -/

theorem renderLoop_ok (render : Str → Except Str Str) (ps : List Placeholder)
    (hdec : ∀ p ∈ ps, (decodeURIComponent p.dataMermaid).isSome = true) :
    renderLoop render ps =
      .ok (ps.map (processOne render),
           (ps.filter (renderOk render)).length,
           (ps.filter (fun p => !(renderOk render p))).length) := by
  induction ps with
  | nil => rfl
  | cons p t ih =>
    have hp := hdec p (List.mem_cons_self p t)
    have ht : ∀ q ∈ t, (decodeURIComponent q.dataMermaid).isSome = true :=
      fun q hq => hdec q (List.mem_cons_of_mem p hq)
    rcases hcode : decodeURIComponent p.dataMermaid with _ | code
    · rw [hcode] at hp
      simp at hp
    · rcases hr : render code with svg | msg
      all_goals
        simp only [renderLoop, hcode, ih ht, processOne, renderOk, List.map_cons,
          List.filter_cons, hr, Except.toOption]
      · simp
      · simp

theorem gitgraph_implies_graph {fl : Str} (h : containsSub (strOf "gitgraph") fl = true) :
    containsSub (strOf "graph") fl = true := by
  have h1 : containsSub ('g' :: strOf "itgraph") fl = true := h
  have h2 : containsSub ('i' :: strOf "tgraph") fl = true := containsSub_tailNeedle h1
  have h3 : containsSub ('t' :: strOf "graph") fl = true := containsSub_tailNeedle h2
  exact containsSub_tailNeedle h3

theorem detect_eq_classifyKeywords (code : Str) :
    detectDiagramType code = classifyKeywords specKeywordTable (toLowerStr (trim (firstLine code))) := by
  simp only [detectDiagramType, specKeywordTable, classifyKeywords]
  generalize toLowerStr (trim (firstLine code)) = fl
  by_cases hg : containsSub (strOf "graph") fl = true
  · rw [if_pos (by simp [hg]), if_pos hg]
  rw [if_neg hg]
  by_cases hf : containsSub (strOf "flowchart") fl = true
  · rw [if_pos (by simp [hg, hf]), if_pos hf]
  rw [if_neg hf, if_neg (by simp [hg, hf])]

theorem classifyKeywords_all_neg {line : Str} :
    ∀ {table : List (Str × Str)},
      table.all (fun kv => !(containsSub kv.1 line)) = true →
      classifyKeywords table line = strOf "unknown"
  | [], _ => rfl
  | kv :: rest, h => by
    simp only [List.all_cons, Bool.and_eq_true, Bool.not_eq_true'] at h
    simp only [classifyKeywords]
    rw [if_neg (by simp [h.1])]
    exact classifyKeywords_all_neg h.2

/-! ## Round-trip of the percent encoding -/

theorem hexVal_hexDigitChar {x : Nat} (h : x < 16) : hexVal (hexDigitChar x) = some x := by
  interval_cases x <;> rfl

theorem tokenize_raw (c : Char) (hc : ¬(c = '%')) (r : Str) :
    tokenize (c :: r) = (tokenize r).map (fun ts => Sum.inl c :: ts) := by
  rw [tokenize.eq_def]
  dsimp only
  rw [if_neg hc]

theorem tokenize_percentByte (b : Nat) (h : b < 256) (r : Str) :
    tokenize (percentByte b ++ r) = (tokenize r).map (fun ts => Sum.inr b :: ts) := by
  have h1 : b / 16 < 16 := by omega
  have h2 : b % 16 < 16 := by omega
  show tokenize ('%' :: hexDigitChar (b / 16) :: hexDigitChar (b % 16) :: r) = _
  rw [tokenize.eq_2, if_pos rfl, hexVal_hexDigitChar h1, hexVal_hexDigitChar h2]
  dsimp only
  rw [show 16 * (b / 16) + b % 16 = b by omega]

theorem unreserved_ne_percent {c : Char} (h : isUnreservedChar c = true) : ¬(c = '%') := by
  intro he
  subst he
  simp [isUnreservedChar] at h

theorem utf8Bytes_lt {n : Nat} (h : n < 1114112) : ∀ b ∈ utf8Bytes n, b < 256 := by
  intro b hb
  unfold utf8Bytes at hb
  split at hb
  · simp at hb
    omega
  · split at hb
    · simp at hb
      rcases hb with hb | hb <;> omega
    · split at hb
      · simp at hb
        rcases hb with hb | hb | hb <;> omega
      · simp at hb
        rcases hb with hb | hb | hb | hb <;> omega

theorem tokenize_encBytes (bs : List Nat) (hb : ∀ b ∈ bs, b < 256) (r : Str) :
    tokenize (bs.flatMap percentByte ++ r) =
      (tokenize r).map (fun ts => bs.map Sum.inr ++ ts) := by
  induction bs with
  | nil => simp
  | cons b t ih =>
    have hb0 : b < 256 := hb b (List.mem_cons_self b t)
    have hbt : ∀ x ∈ t, x < 256 := fun x hx => hb x (List.mem_cons_of_mem b hx)
    rw [List.flatMap_cons, List.append_assoc, tokenize_percentByte b hb0, ih hbt,
      Option.map_map]
    rfl

theorem contByte_true {b : Nat} (h1 : 128 ≤ b) (h2 : b ≤ 191) : contByte b = true := by
  simp only [contByte, Bool.and_eq_true, decide_eq_true_eq]
  omega

theorem decodeOne_raw (c : Char) (ts : List (Char ⊕ Nat)) :
    decodeOneUtf8 (Sum.inl c :: ts) = some (c, ts) := rfl

theorem decodeOne_one {b0 : Nat} (h : b0 < 128) (ts : List (Char ⊕ Nat)) :
    decodeOneUtf8 (Sum.inr b0 :: ts) = some (Char.ofNat b0, ts) := by
  show (if b0 < 128 then some (Char.ofNat b0, ts) else _) = _
  rw [if_pos h]

theorem decodeOne_two {b0 b1 : Nat} (ha : ¬(b0 < 128)) (hb : ¬(b0 < 194)) (hc : b0 < 224)
    (hcont : contByte b1 = true) (ts : List (Char ⊕ Nat)) :
    decodeOneUtf8 (Sum.inr b0 :: Sum.inr b1 :: ts) =
      some (Char.ofNat ((b0 - 192) * 64 + (b1 - 128)), ts) := by
  show (if b0 < 128 then some (Char.ofNat b0, Sum.inr b1 :: ts)
    else if b0 < 194 then none
    else if b0 < 224 then
      (if contByte b1 then some (Char.ofNat ((b0 - 192) * 64 + (b1 - 128)), ts) else none)
    else if b0 < 240 then _
    else if b0 < 245 then _
    else none) = _
  rw [if_neg ha, if_neg hb, if_pos hc, if_pos hcont]

theorem decodeOne_three {b0 b1 b2 : Nat} (ha : ¬(b0 < 128)) (hb : ¬(b0 < 194))
    (hc : ¬(b0 < 224)) (hd : b0 < 240)
    (hcont1 : contByte b1 = true) (hcont2 : contByte b2 = true)
    (hval : 2048 ≤ (b0 - 224) * 4096 + (b1 - 128) * 64 + (b2 - 128) ∧
      ((b0 - 224) * 4096 + (b1 - 128) * 64 + (b2 - 128) < 55296 ∨
       57344 ≤ (b0 - 224) * 4096 + (b1 - 128) * 64 + (b2 - 128)))
    (ts : List (Char ⊕ Nat)) :
    decodeOneUtf8 (Sum.inr b0 :: Sum.inr b1 :: Sum.inr b2 :: ts) =
      some (Char.ofNat ((b0 - 224) * 4096 + (b1 - 128) * 64 + (b2 - 128)), ts) := by
  show (if b0 < 128 then some (Char.ofNat b0, Sum.inr b1 :: Sum.inr b2 :: ts)
    else if b0 < 194 then none
    else if b0 < 224 then _
    else if b0 < 240 then
      (if contByte b1 && contByte b2 then
        if 2048 ≤ (b0 - 224) * 4096 + (b1 - 128) * 64 + (b2 - 128) &&
           ((b0 - 224) * 4096 + (b1 - 128) * 64 + (b2 - 128) < 55296 ||
            57344 ≤ (b0 - 224) * 4096 + (b1 - 128) * 64 + (b2 - 128)) then
          some (Char.ofNat ((b0 - 224) * 4096 + (b1 - 128) * 64 + (b2 - 128)), ts)
        else none
      else none)
    else if b0 < 245 then _
    else none) = _
  rw [if_neg ha, if_neg hb, if_neg hc, if_pos hd, if_pos (by rw [hcont1, hcont2]; rfl),
    if_pos (by
      simp only [Bool.and_eq_true, Bool.or_eq_true, decide_eq_true_eq]
      exact hval)]

theorem decodeOne_four {b0 b1 b2 b3 : Nat} (ha : ¬(b0 < 128)) (hb : ¬(b0 < 194))
    (hc : ¬(b0 < 224)) (hd : ¬(b0 < 240)) (he : b0 < 245)
    (hcont1 : contByte b1 = true) (hcont2 : contByte b2 = true) (hcont3 : contByte b3 = true)
    (hval : 65536 ≤ (b0 - 240) * 262144 + (b1 - 128) * 4096 + (b2 - 128) * 64 + (b3 - 128) ∧
      (b0 - 240) * 262144 + (b1 - 128) * 4096 + (b2 - 128) * 64 + (b3 - 128) ≤ 1114111)
    (ts : List (Char ⊕ Nat)) :
    decodeOneUtf8 (Sum.inr b0 :: Sum.inr b1 :: Sum.inr b2 :: Sum.inr b3 :: ts) =
      some (Char.ofNat ((b0 - 240) * 262144 + (b1 - 128) * 4096 + (b2 - 128) * 64 + (b3 - 128)),
        ts) := by
  show (if b0 < 128 then some (Char.ofNat b0, Sum.inr b1 :: Sum.inr b2 :: Sum.inr b3 :: ts)
    else if b0 < 194 then none
    else if b0 < 224 then _
    else if b0 < 240 then _
    else if b0 < 245 then
      (if contByte b1 && contByte b2 && contByte b3 then
        if 65536 ≤ (b0 - 240) * 262144 + (b1 - 128) * 4096 + (b2 - 128) * 64 + (b3 - 128) &&
           (b0 - 240) * 262144 + (b1 - 128) * 4096 + (b2 - 128) * 64 + (b3 - 128) ≤ 1114111 then
          some (Char.ofNat ((b0 - 240) * 262144 + (b1 - 128) * 4096 + (b2 - 128) * 64 +
            (b3 - 128)), ts)
        else none
      else none)
    else none) = _
  rw [if_neg ha, if_neg hb, if_neg hc, if_neg hd, if_pos he,
    if_pos (by rw [hcont1, hcont2, hcont3]; rfl),
    if_pos (by
      simp only [Bool.and_eq_true, decide_eq_true_eq]
      exact hval)]

/-- Decoding one encoded character consumes exactly its token block. -/
theorem decodeOne_tokChar (c : Char) (rest : List (Char ⊕ Nat)) :
    decodeOneUtf8 (tokChar c ++ rest) = some (c, rest) := by
  have hval : c.toNat < 55296 ∨ (57343 < c.toNat ∧ c.toNat < 1114112) := c.valid
  by_cases hu : isUnreservedChar c = true
  · rw [tokChar, if_pos hu]
    exact decodeOne_raw c rest
  rw [tokChar, if_neg hu]
  generalize hn : c.toNat = n at hval
  have hofn : Char.ofNat n = c := by rw [← hn, Char.ofNat_toNat]
  by_cases h1 : n < 128
  · rw [utf8Bytes, if_pos h1]
    simp only [List.map_cons, List.map_nil, List.cons_append, List.nil_append]
    rw [decodeOne_one h1, hofn]
  by_cases h2 : n < 2048
  · rw [utf8Bytes, if_neg h1, if_pos h2]
    simp only [List.map_cons, List.map_nil, List.cons_append, List.nil_append]
    rw [decodeOne_two (by omega) (by omega) (by omega)
      (contByte_true (by omega) (by omega)) rest]
    rw [show (192 + n / 64 - 192) * 64 + (128 + n % 64 - 128) = n by omega, hofn]
  by_cases h3 : n < 65536
  · rw [utf8Bytes, if_neg h1, if_neg h2, if_pos h3]
    simp only [List.map_cons, List.map_nil, List.cons_append, List.nil_append]
    rw [decodeOne_three (by omega) (by omega) (by omega) (by omega)
      (contByte_true (by omega) (by omega)) (contByte_true (by omega) (by omega))
      (by constructor <;> omega) rest]
    rw [show (224 + n / 4096 - 224) * 4096 + (128 + n / 64 % 64 - 128) * 64 +
      (128 + n % 64 - 128) = n by omega, hofn]
  · have h4 : n < 1114112 := by omega
    rw [utf8Bytes, if_neg h1, if_neg h2, if_neg h3]
    simp only [List.map_cons, List.map_nil, List.cons_append, List.nil_append]
    rw [decodeOne_four (by omega) (by omega) (by omega) (by omega) (by omega)
      (contByte_true (by omega) (by omega)) (contByte_true (by omega) (by omega))
      (contByte_true (by omega) (by omega)) (by constructor <;> omega) rest]
    rw [show (240 + n / 262144 - 240) * 262144 + (128 + n / 4096 % 64 - 128) * 4096 +
      (128 + n / 64 % 64 - 128) * 64 + (128 + n % 64 - 128) = n by omega, hofn]

theorem tokenize_encodeURIComponent (s : Str) :
    tokenize (encodeURIComponent s) = some (s.flatMap tokChar) := by
  induction s with
  | nil => rfl
  | cons c t ih =>
    show tokenize (encChar c ++ encodeURIComponent t) = _
    by_cases hu : isUnreservedChar c = true
    · rw [encChar, if_pos hu, List.cons_append, List.nil_append,
        tokenize_raw c (unreserved_ne_percent hu), ih]
      rw [List.flatMap_cons, tokChar, if_pos hu]
      rfl
    · have hlt : ∀ b ∈ utf8Bytes c.toNat, b < 256 := by
        apply utf8Bytes_lt
        have hval : c.toNat < 55296 ∨ (57343 < c.toNat ∧ c.toNat < 1114112) := c.valid
        omega
      rw [encChar, if_neg hu, tokenize_encBytes _ hlt, ih]
      rw [List.flatMap_cons, tokChar, if_neg hu]
      rfl

theorem tokChar_ne_nil (c : Char) : ∃ tk tks, tokChar c = tk :: tks := by
  rw [tokChar]
  by_cases hu : isUnreservedChar c = true
  · rw [if_pos hu]
    exact ⟨_, _, rfl⟩
  rw [if_neg hu, utf8Bytes]
  by_cases h1 : c.toNat < 128
  · rw [if_pos h1]
    exact ⟨_, _, rfl⟩
  rw [if_neg h1]
  by_cases h2 : c.toNat < 2048
  · rw [if_pos h2]
    exact ⟨_, _, rfl⟩
  rw [if_neg h2]
  by_cases h3 : c.toNat < 65536
  · rw [if_pos h3]
    exact ⟨_, _, rfl⟩
  rw [if_neg h3]
  exact ⟨_, _, rfl⟩

theorem assembleAux_nil (fuel : Nat) : assembleAux fuel [] = some [] := by
  cases fuel <;> rfl

theorem assembleAux_cons (fuel : Nat) (tk : Char ⊕ Nat) (ts : List (Char ⊕ Nat)) :
    assembleAux (fuel + 1) (tk :: ts) =
      match decodeOneUtf8 (tk :: ts) with
      | some (c, rest) => (assembleAux fuel rest).map (fun r => c :: r)
      | none => none := rfl

theorem assembleAux_tokChar (s : Str) :
    ∀ fuel : Nat, (s.flatMap tokChar).length ≤ fuel →
      assembleAux fuel (s.flatMap tokChar) = some s := by
  induction s with
  | nil =>
    intro fuel _
    exact assembleAux_nil fuel
  | cons c t ih =>
    intro fuel hfuel
    rw [List.flatMap_cons] at hfuel ⊢
    obtain ⟨tk, tks, htk⟩ := tokChar_ne_nil c
    rw [htk] at hfuel ⊢
    rw [List.cons_append] at hfuel ⊢
    cases fuel with
    | zero => simp at hfuel
    | succ f =>
      rw [assembleAux_cons]
      have hdec : decodeOneUtf8 (tk :: (tks ++ t.flatMap tokChar)) =
          some (c, t.flatMap tokChar) := by
        rw [← List.cons_append, ← htk]
        exact decodeOne_tokChar c _
      rw [hdec]
      dsimp only
      have hlen : (t.flatMap tokChar).length ≤ f := by
        simp only [List.length_cons, List.length_append] at hfuel
        omega
      rw [ih f hlen]
      rfl

theorem decode_encode_roundtrip (s : Str) :
    decodeURIComponent (encodeURIComponent s) = some s := by
  unfold decodeURIComponent
  rw [tokenize_encodeURIComponent]
  exact assembleAux_tokChar s _ (Nat.le_refl _)

/-! ## Lifecycle lemmas -/

theorem closePageStep_preserves (caps : Caps) (st : Trace) :
    (closePageStep caps st).browserSet = st.browserSet ∧
    (closePageStep caps st).pageSet = st.pageSet ∧
    (closePageStep caps st).artifactWritten = st.artifactWritten ∧
    (closePageStep caps st).waitTimeoutUsed = st.waitTimeoutUsed ∧
    (closePageStep caps st).browserCloseTried = st.browserCloseTried ∧
    (closePageStep caps st).browserClosed = st.browserClosed ∧
    (closePageStep caps st).pdfCalledWith = st.pdfCalledWith ∧
    (closePageStep caps st).renderStatus = st.renderStatus ∧
    (closePageStep caps st).pagePlaceholders = st.pagePlaceholders := by
  unfold closePageStep
  split
  · split <;> simp
  · simp

theorem closeBrowserStep_preserves (caps : Caps) (st : Trace) :
    (closeBrowserStep caps st).browserSet = st.browserSet ∧
    (closeBrowserStep caps st).pageSet = st.pageSet ∧
    (closeBrowserStep caps st).artifactWritten = st.artifactWritten ∧
    (closeBrowserStep caps st).waitTimeoutUsed = st.waitTimeoutUsed ∧
    (closeBrowserStep caps st).pageCloseTried = st.pageCloseTried ∧
    (closeBrowserStep caps st).pageClosed = st.pageClosed ∧
    (closeBrowserStep caps st).pdfCalledWith = st.pdfCalledWith ∧
    (closeBrowserStep caps st).renderStatus = st.renderStatus ∧
    (closeBrowserStep caps st).pagePlaceholders = st.pagePlaceholders := by
  unfold closeBrowserStep
  split
  · split <;> simp
  · simp

theorem closeBrowserStep_warnings_mono (caps : Caps) (st : Trace) {e : Str}
    (h : e ∈ st.teardownWarnings) : e ∈ (closeBrowserStep caps st).teardownWarnings := by
  unfold closeBrowserStep
  split
  · split
    · simpa using h
    · simp only [List.mem_append]
      exact Or.inl h
  · exact h

theorem cleanup_preserves (caps : Caps) (st : Trace) :
    (cleanup caps st).browserSet = st.browserSet ∧
    (cleanup caps st).pageSet = st.pageSet ∧
    (cleanup caps st).artifactWritten = st.artifactWritten ∧
    (cleanup caps st).waitTimeoutUsed = st.waitTimeoutUsed ∧
    (cleanup caps st).pdfCalledWith = st.pdfCalledWith ∧
    (cleanup caps st).renderStatus = st.renderStatus ∧
    (cleanup caps st).pagePlaceholders = st.pagePlaceholders := by
  have h1 := closePageStep_preserves caps st
  have h2 := closeBrowserStep_preserves caps (closePageStep caps st)
  unfold cleanup
  exact ⟨h2.1.trans h1.1, h2.2.1.trans h1.2.1, h2.2.2.1.trans h1.2.2.1,
    h2.2.2.2.1.trans h1.2.2.2.1, h2.2.2.2.2.2.2.1.trans h1.2.2.2.2.2.2.1,
    h2.2.2.2.2.2.2.2.1.trans h1.2.2.2.2.2.2.2.1,
    h2.2.2.2.2.2.2.2.2.trans h1.2.2.2.2.2.2.2.2⟩

theorem cleanup_pageCloseTried (caps : Caps) (st : Trace) (h : st.pageSet = true) :
    (cleanup caps st).pageCloseTried = true := by
  have h2 := (closeBrowserStep_preserves caps (closePageStep caps st)).2.2.2.2.1
  unfold cleanup
  rw [h2]
  unfold closePageStep
  rw [if_pos h]
  rcases caps.closePage with _ | e <;> simp

theorem cleanup_browserCloseTried (caps : Caps) (st : Trace) (h : st.browserSet = true) :
    (cleanup caps st).browserCloseTried = true := by
  have h1 := (closePageStep_preserves caps st).1
  unfold cleanup closeBrowserStep
  rw [h1, if_pos h]
  rcases caps.closeBrowser with _ | e <;> simp

theorem cleanup_pageClosed (caps : Caps) (st : Trace) (hok : caps.closePage = .ok ())
    (h : st.pageSet = true) : (cleanup caps st).pageClosed = true := by
  have h2 := (closeBrowserStep_preserves caps (closePageStep caps st)).2.2.2.2.2.1
  unfold cleanup
  rw [h2]
  unfold closePageStep
  rw [if_pos h, hok]

theorem cleanup_browserClosed (caps : Caps) (st : Trace) (hok : caps.closeBrowser = .ok ())
    (h : st.browserSet = true) : (cleanup caps st).browserClosed = true := by
  have h1 := (closePageStep_preserves caps st).1
  unfold cleanup closeBrowserStep
  rw [h1, if_pos h, hok]

theorem cleanup_warn_page (caps : Caps) (st : Trace) {e : Str}
    (he : caps.closePage = .error e) (h : st.pageSet = true) :
    e ∈ (cleanup caps st).teardownWarnings := by
  unfold cleanup
  apply closeBrowserStep_warnings_mono
  unfold closePageStep
  rw [if_pos h, he]
  simp

theorem cleanup_warn_browser (caps : Caps) (st : Trace) {e : Str}
    (he : caps.closeBrowser = .error e) (h : st.browserSet = true) :
    e ∈ (cleanup caps st).teardownWarnings := by
  have h1 := (closePageStep_preserves caps st).1
  unfold cleanup closeBrowserStep
  rw [h1, if_pos h, he]
  simp

theorem pipeline_decodable (content : Str) :
    ∀ p ∈ (extractMermaidDiagrams content).map
        (fun d => (⟨encodeURIComponent d.code, placeholderInner⟩ : Placeholder)),
      (decodeURIComponent p.dataMermaid).isSome = true := by
  intro p hp
  rcases List.mem_map.mp hp with ⟨d, _, rfl⟩
  simp [decode_encode_roundtrip]

theorem convertBody_close_irrel (caps : Caps) (x y : Except Str Unit) :
    convertBody { caps with closePage := x, closeBrowser := y } = convertBody caps := by
  rcases caps with ⟨f1, f2, f3, f4, f5, f6, f7, f8, f9, f10, f11, f12⟩
  rfl

/-! ## Claim theorems -/

/-- Claim C10: `detectDiagramType` never returns `gitgraph`: a first line
containing the substring `gitgraph` also contains `graph`, so the earlier
`graph`-or-`flowchart` predicate already classifies it as `flowchart`,
leaving the git-graph branch unreachable, for every input string. -/
theorem claim_C10_detect_never_gitgraph (code : Str) :
    detectDiagramType code ≠ strOf "gitgraph" := by
  intro h
  simp only [detectDiagramType] at h
  generalize toLowerStr (trim (firstLine code)) = fl at h
  by_cases h1 : (containsSub (strOf "graph") fl || containsSub (strOf "flowchart") fl) = true
  · rw [if_pos h1] at h
    exact absurd h (by decide)
  rw [if_neg h1] at h
  by_cases h2 : containsSub (strOf "sequence") fl = true
  · rw [if_pos h2] at h
    exact absurd h (by decide)
  rw [if_neg h2] at h
  by_cases h3 : containsSub (strOf "class") fl = true
  · rw [if_pos h3] at h
    exact absurd h (by decide)
  rw [if_neg h3] at h
  by_cases h4 : containsSub (strOf "state") fl = true
  · rw [if_pos h4] at h
    exact absurd h (by decide)
  rw [if_neg h4] at h
  by_cases h5 : containsSub (strOf "er") fl = true
  · rw [if_pos h5] at h
    exact absurd h (by decide)
  rw [if_neg h5] at h
  by_cases h6 : containsSub (strOf "journey") fl = true
  · rw [if_pos h6] at h
    exact absurd h (by decide)
  rw [if_neg h6] at h
  by_cases h7 : containsSub (strOf "gantt") fl = true
  · rw [if_pos h7] at h
    exact absurd h (by decide)
  rw [if_neg h7] at h
  by_cases h8 : containsSub (strOf "pie") fl = true
  · rw [if_pos h8] at h
    exact absurd h (by decide)
  rw [if_neg h8] at h
  by_cases h9 : containsSub (strOf "gitgraph") fl = true
  · refine h1 ?_
    simp only [Bool.or_eq_true]
    exact Or.inl (gitgraph_implies_graph h9)
  rw [if_neg h9] at h
  by_cases h10 : containsSub (strOf "mindmap") fl = true
  · rw [if_pos h10] at h
    exact absurd h (by decide)
  rw [if_neg h10] at h
  by_cases h11 : containsSub (strOf "timeline") fl = true
  · rw [if_pos h11] at h
    exact absurd h (by decide)
  rw [if_neg h11] at h
  by_cases h12 : containsSub (strOf "zenuml") fl = true
  · rw [if_pos h12] at h
    exact absurd h (by decide)
  rw [if_neg h12] at h
  by_cases h13 : containsSub (strOf "sankey") fl = true
  · rw [if_pos h13] at h
    exact absurd h (by decide)
  rw [if_neg h13] at h
  exact absurd h (by decide)

/-- Claim C3, counterexample: for the body `"\ngraph TD"` — whose first
line is empty and whose first non-empty line starts a flowchart —
`detectDiagramType` answers `unknown` while the spec's reference
classifier (first non-empty line) answers `flowchart`, so the two are
not equal. -/
theorem claim_C3_counterexample :
    detectDiagramType (strOf "\ngraph TD") = strOf "unknown" ∧
    specReferenceClassifier (strOf "\ngraph TD") = strOf "flowchart" ∧
    detectDiagramType (strOf "\ngraph TD") ≠ specReferenceClassifier (strOf "\ngraph TD") :=
  ⟨by decide, by decide, by decide⟩

/-- Claim C3 as amended: `detectDiagramType` inspects the first line of
the block body (not the first non-empty line), trimmed and lower-cased,
and applies the fixed ordered substring predicates with first match
winning; it is total by construction, deterministic in the normalised
first line, and answers `unknown` whenever no predicate matches. -/
theorem claim_C3_amended :
    (∀ code, detectDiagramType code = specFirstLineClassifier code) ∧
    (∀ a b, toLowerStr (trim (firstLine a)) = toLowerStr (trim (firstLine b)) →
      detectDiagramType a = detectDiagramType b) ∧
    (∀ code,
      specKeywordTable.all
        (fun kv => !(containsSub kv.1 (toLowerStr (trim (firstLine code))))) = true →
      detectDiagramType code = strOf "unknown") := by
  refine ⟨fun code => detect_eq_classifyKeywords code, fun a b h => ?_, fun code h => ?_⟩
  · rw [detect_eq_classifyKeywords, detect_eq_classifyKeywords, h]
  · rw [detect_eq_classifyKeywords]
    exact classifyKeywords_all_neg h

/-- Claim C3 amended, witness at concrete inputs: `"stateDiagram-v2"`
normalises like itself and classifies as `state`, while a body whose
normalised first line (`"hello world"`) matches no keyword classifies
as `unknown`. -/
theorem claim_C3_amended_witness :
    detectDiagramType (strOf "stateDiagram-v2\nx") = specFirstLineClassifier (strOf "stateDiagram-v2\nx") ∧
    detectDiagramType (strOf "HELLO WORLD\nx") = detectDiagramType (strOf "hello world\ny") ∧
    detectDiagramType (strOf "hello world\ny") = strOf "unknown" :=
  ⟨claim_C3_amended.1 (strOf "stateDiagram-v2\nx"),
   claim_C3_amended.2.1 (strOf "HELLO WORLD\nx") (strOf "hello world\ny") (by decide),
   claim_C3_amended.2.2 (strOf "hello world\ny") (by decide)⟩

/-- Claim C8, counterexample: for the one-flowchart document
`"```mermaid\ngraph TD\nA-->B\n```"` the extracted diagram has type
`flowchart`, yet that type string does not occur anywhere in the
placeholder that replaces the fence — the placeholder carries only the
encoded source, not the diagram's type. -/
theorem claim_C8_counterexample :
    (extractMermaidDiagrams (strOf "```mermaid\ngraph TD\nA-->B\n```")).map Diagram.type
      = [strOf "flowchart"] ∧
    (extractMermaidDiagrams (strOf "```mermaid\ngraph TD\nA-->B\n```")).map
      (fun d => containsSub d.type (placeholderFor d.code)) = [false] :=
  ⟨by decide, by decide⟩

/-- Claim C8 as amended: every placeholder block carries the diagram's
URL-safe-encoded source in its `data-mermaid` attribute and the fixed
marker class `mermaid-diagram`, and is wrapped in blank lines (a leading
and a trailing `"\n\n"`) so the markdown transform treats it as an opaque
HTML block; the diagram's type is not part of the placeholder (it is
only logged). -/
theorem claim_C8_amended (code : Str) :
    placeholderFor code =
      strOf "\n\n" ++
        (strOf "<div class=\"mermaid-diagram\" data-mermaid=\"" ++
         (encodeURIComponent code ++
          strOf "\">\n<div class=\"mermaid-placeholder\">Rendering diagram...</div>\n</div>")) ++
      strOf "\n\n" ∧
    containsSub (encodeURIComponent code) (placeholderFor code) = true ∧
    containsSub (strOf "data-mermaid=\"") (placeholderFor code) = true ∧
    containsSub (strOf "<div class=\"mermaid-diagram\"") (placeholderFor code) = true := by
  refine ⟨?_, ?_, ?_, ?_⟩
  · show strOf "\n\n<div class=\"mermaid-diagram\" data-mermaid=\"" ++ _ = _
    rw [show strOf "\n\n<div class=\"mermaid-diagram\" data-mermaid=\"" =
          strOf "\n\n" ++ strOf "<div class=\"mermaid-diagram\" data-mermaid=\"" by decide]
    rw [show strOf "\">\n<div class=\"mermaid-placeholder\">Rendering diagram...</div>\n</div>\n\n" =
          strOf "\">\n<div class=\"mermaid-placeholder\">Rendering diagram...</div>\n</div>" ++
          strOf "\n\n" by decide]
    simp [List.append_assoc]
  · exact containsSub_sandwich (encodeURIComponent code)
      (strOf "\n\n<div class=\"mermaid-diagram\" data-mermaid=\"")
      (strOf "\">\n<div class=\"mermaid-placeholder\">Rendering diagram...</div>\n</div>\n\n")
  · show containsSub _
      (strOf "\n\n<div class=\"mermaid-diagram\" data-mermaid=\"" ++
        (encodeURIComponent code ++
         strOf "\">\n<div class=\"mermaid-placeholder\">Rendering diagram...</div>\n</div>\n\n")) = true
    exact containsSub_append_left _ (by decide)
  · show containsSub _
      (strOf "\n\n<div class=\"mermaid-diagram\" data-mermaid=\"" ++
        (encodeURIComponent code ++
         strOf "\">\n<div class=\"mermaid-placeholder\">Rendering diagram...</div>\n</div>\n\n")) = true
    exact containsSub_append_left _ (by decide)

/-- Claim C5, counterexample: a render failure with message `boom` on a
diagram with source `XCODE` replaces the element's content with the
inline error marker, which carries only the message — the diagram's own
source text does not occur in the marker. -/
theorem claim_C5_counterexample :
    renderLoop (fun _ => Except.error (strOf "boom"))
        [⟨encodeURIComponent (strOf "XCODE"), placeholderInner⟩] =
      .ok ([⟨encodeURIComponent (strOf "XCODE"), errorMarker (strOf "boom")⟩], 0, 1) ∧
    containsSub (strOf "XCODE") (errorMarker (strOf "boom")) = false :=
  ⟨rfl, by decide⟩

/-- Claim C5 as amended: for every diagram whose render fails in the
per-diagram loop, the element's content becomes the visible inline error
marker, which contains the error message but not the diagram's source;
the source survives only percent-encoded in the element's untouched
`data-mermaid` attribute.  (The converter's unused node-side fallback
`renderMermaidDiagram` does embed the source in its error block; the
in-page loop the pipeline actually runs does not.) -/
theorem claim_C5_amended (render : Str → Except Str Str) (p : Placeholder) (code msg : Str)
    (hdec : decodeURIComponent p.dataMermaid = some code)
    (hfail : render code = .error msg) :
    processOne render p = { p with innerHTML := errorMarker msg } ∧
    containsSub msg (errorMarker msg) = true ∧
    (processOne render p).dataMermaid = p.dataMermaid := by
  refine ⟨?_, ?_, ?_⟩
  · simp [processOne, hdec, hfail]
  · exact containsSub_sandwich msg
      (strOf "<div style=\"color: red; border: 1px solid red; padding: 10px;\">Mermaid Diagram Error: ")
      (strOf "</div>")
  · simp [processOne, hdec, hfail]

/-- Claim C5 amended, witness: a concrete failing render of the source
`pie` with message `Parse error`. -/
theorem claim_C5_amended_witness :
    processOne (fun _ => Except.error (strOf "Parse error")) ⟨strOf "pie", placeholderInner⟩ =
      { (⟨strOf "pie", placeholderInner⟩ : Placeholder) with
          innerHTML := errorMarker (strOf "Parse error") } ∧
    containsSub (strOf "Parse error") (errorMarker (strOf "Parse error")) = true ∧
    (processOne (fun _ => Except.error (strOf "Parse error"))
        ⟨strOf "pie", placeholderInner⟩).dataMermaid =
      (⟨strOf "pie", placeholderInner⟩ : Placeholder).dataMermaid :=
  claim_C5_amended (fun _ => Except.error (strOf "Parse error")) ⟨strOf "pie", placeholderInner⟩
    (strOf "pie") (strOf "Parse error") (by decide) rfl

set_option maxRecDepth 40000 in
/-- Claim C1, failing run: on `collidingInput` the extractor produces
two diagram blocks (`fence0` then `fence1`), yet the assembled document
handed to the markdown transform is `placeholderFor code1 ++ fence1`:
diagram 1's original fenced text remains verbatim (so not all fenced
text is gone and there is no placeholder per extracted block in
extraction order) because `replace` hit a colliding earlier occurrence
manufactured by diagram 0's substitution. -/
theorem claim_C1_code_bug :
    (extractMermaidDiagrams collidingInput).map Diagram.fullMatch = [fence0, fence1] ∧
    substituteDiagrams collidingInput =
      placeholderFor (trim ((placeholderFor (strOf "A")).drop 2)) ++ fence1 ∧
    containsSub fence1 (substituteDiagrams collidingInput) = true :=
  ⟨rfl, rfl, rfl⟩

/-- Claim C4: round-trip of the placeholder encoding — the strict decoder
inverts the percent encoder on every string; the placeholder stores
exactly the percent-encoding of the trimmed source in its `data-mermaid`
attribute; and for every diagram extracted from any document, the string
the render loop decodes from that attribute (and passes to the rendering
capability) equals the trimmed source, so arbitrary diagram syntax
survives the intermediate HTML representation unchanged. -/
theorem claim_C4_roundtrip :
    (∀ s : Str, decodeURIComponent (encodeURIComponent s) = some s) ∧
    (∀ code : Str, placeholderFor code =
      strOf "\n\n<div class=\"mermaid-diagram\" data-mermaid=\"" ++
      (encodeURIComponent code ++
       strOf "\">\n<div class=\"mermaid-placeholder\">Rendering diagram...</div>\n</div>\n\n")) ∧
    (∀ content : Str, ∀ d ∈ extractMermaidDiagrams content,
      decodeURIComponent (encodeURIComponent d.code) = some d.code) :=
  ⟨decode_encode_roundtrip, fun _ => rfl, fun _ d _ => decode_encode_roundtrip d.code⟩

/-- Claim C4, witness: a one-diagram document whose source holds
HTML-significant and non-ASCII characters; its extracted diagram decodes
back to its trimmed source exactly. -/
theorem claim_C4_roundtrip_witness :
    (⟨strOf "```mermaid\npie <>&\"-д\n```", strOf "pie <>&\"-д", strOf "pie"⟩ : Diagram) ∈
      extractMermaidDiagrams (strOf "```mermaid\npie <>&\"-д\n```") ∧
    decodeURIComponent (encodeURIComponent (strOf "pie <>&\"-д")) = some (strOf "pie <>&\"-д") :=
  ⟨by decide,
   claim_C4_roundtrip.2.2 (strOf "```mermaid\npie <>&\"-д\n```")
     ⟨strOf "```mermaid\npie <>&\"-д\n```", strOf "pie <>&\"-д", strOf "pie"⟩ (by decide)⟩


/-- Claim C6: the wait for the in-page mermaid capability is invoked
with the fixed bound `mermaidLoadTimeoutMs = 10000` milliseconds, and a
wait failure is fatal for the whole conversion: `convertToPdf` returns
the single wrapped terminal error, no artifact is written, and teardown
(page close, browser close) has still been attempted before the error
surfaces. -/
theorem claim_C6_wait_timeout_fatal (caps : Caps) (content m : Str)
    (hinit : caps.initMermaid = .ok ()) (hread : caps.readFile = .ok content)
    (hlaunch : caps.launch = .ok ()) (hnew : caps.newPage = .ok ())
    (hset : ∀ s, caps.setContent s = .ok ())
    (hwait : caps.waitForMermaid mermaidLoadTimeoutMs = .error m) :
    mermaidLoadTimeoutMs = 10000 ∧
    (convertToPdf caps).1 = .error (pdfFailMsg m) ∧
    ((convertToPdf caps).2).waitTimeoutUsed = some 10000 ∧
    ((convertToPdf caps).2).artifactWritten = false ∧
    ((convertToPdf caps).2).pageCloseTried = true ∧
    ((convertToPdf caps).2).browserCloseTried = true := by
  have hbody : convertBody caps =
      (.error (pdfFailMsg m),
       { browserSet := true, pageSet := true, waitTimeoutUsed := some mermaidLoadTimeoutMs }) := by
    simp only [convertBody, hinit, readMarkdownFile, hread, generatePdf, hlaunch, hnew, hset,
      hwait]
  have h2 : (convertToPdf caps).2 = cleanup caps (convertBody caps).2 := rfl
  have hpres := cleanup_preserves caps (convertBody caps).2
  refine ⟨rfl, ?_, ?_, ?_, ?_, ?_⟩
  · show (convertBody caps).1 = _
    rw [hbody]
  · rw [h2, hpres.2.2.2.1, hbody]
    rfl
  · rw [h2, hpres.2.2.1, hbody]
  · rw [h2]
    exact cleanup_pageCloseTried _ _ (by rw [hbody])
  · rw [h2]
    exact cleanup_browserCloseTried _ _ (by rw [hbody])

/-- Claim C2: when the environment infrastructure works, the render loop
processes every placeholder of the loaded page exactly once in document
order (the final page elements are the element-wise image of the loop
body), a render failure only changes its own element, the conversion
still succeeds and writes the artifact, and the aggregate satisfies
`total = N`, `rendered` counting exactly the successes, `failed` the
failures, with `rendered + failed = total` — for an arbitrary render
capability, so any subset of diagrams may fail. -/
theorem claim_C2_render_isolation (caps : Caps) (html content : Str) (ps : List Placeholder)
    (hdec : ∀ p ∈ ps, (decodeURIComponent p.dataMermaid).isSome = true)
    (hinit : caps.initMermaid = .ok ()) (hread : caps.readFile = .ok content)
    (hlaunch : caps.launch = .ok ()) (hnew : caps.newPage = .ok ())
    (hset : ∀ s, caps.setContent s = .ok ())
    (hwait : caps.waitForMermaid mermaidLoadTimeoutMs = .ok ())
    (hpdf : ∀ o, caps.pdf o = .ok ()) :
    (generatePdf caps html ps {}).1 =
      .ok ⟨ps.length, (ps.filter (renderOk caps.renderDiagram)).length,
        (ps.filter (fun p => !(renderOk caps.renderDiagram p))).length⟩ ∧
    ((generatePdf caps html ps {}).2).pagePlaceholders = ps.map (processOne caps.renderDiagram) ∧
    ((generatePdf caps html ps {}).2).artifactWritten = true ∧
    (ps.filter (renderOk caps.renderDiagram)).length +
      (ps.filter (fun p => !(renderOk caps.renderDiagram p))).length = ps.length ∧
    (convertToPdf caps).1 =
      .ok ⟨(extractMermaidDiagrams content).length,
        (((extractMermaidDiagrams content).map
            (fun d => (⟨encodeURIComponent d.code, placeholderInner⟩ : Placeholder))).filter
          (renderOk caps.renderDiagram)).length,
        (((extractMermaidDiagrams content).map
            (fun d => (⟨encodeURIComponent d.code, placeholderInner⟩ : Placeholder))).filter
          (fun p => !(renderOk caps.renderDiagram p))).length⟩ ∧
    ((convertToPdf caps).2).artifactWritten = true := by
  have hloop := renderLoop_ok caps.renderDiagram ps hdec
  have hloop2 := renderLoop_ok caps.renderDiagram
    ((extractMermaidDiagrams content).map
      (fun d => (⟨encodeURIComponent d.code, placeholderInner⟩ : Placeholder)))
    (pipeline_decodable content)
  refine ⟨?_, ?_, ?_, length_filter_add_length_filter_not _ _, ?_, ?_⟩
  · simp only [generatePdf, hlaunch, hnew, hset, hwait, hloop, hpdf]
  · simp only [generatePdf, hlaunch, hnew, hset, hwait, hloop, hpdf]
  · simp only [generatePdf, hlaunch, hnew, hset, hwait, hloop, hpdf]
  · show (convertBody caps).1 = _
    simp only [convertBody, hinit, readMarkdownFile, hread, generatePdf, hlaunch, hnew, hset,
      hwait, hloop2, hpdf, List.length_map]
  · show (cleanup caps (convertBody caps).2).artifactWritten = true
    rw [(cleanup_preserves caps _).2.2.1]
    simp only [convertBody, hinit, readMarkdownFile, hread, generatePdf, hlaunch, hnew, hset,
      hwait, hloop2, hpdf]

/-- Claim C9: page emission always requests serialization with the fixed
geometry — A4, uniform one-inch margins, backgrounds printed, no header
or footer — recorded before the call regardless of its outcome, and a
serialization failure is fatal: the conversion returns the wrapped
terminal error carrying the underlying cause. -/
theorem claim_C9_pdf_emission (caps : Caps) (content e : Str)
    (hinit : caps.initMermaid = .ok ()) (hread : caps.readFile = .ok content)
    (hlaunch : caps.launch = .ok ()) (hnew : caps.newPage = .ok ())
    (hset : ∀ s, caps.setContent s = .ok ())
    (hwait : caps.waitForMermaid mermaidLoadTimeoutMs = .ok ()) :
    pdfOptions = ⟨strOf "A4", strOf "1in", strOf "1in", strOf "1in", strOf "1in", true, false⟩ ∧
    ((convertToPdf caps).2).pdfCalledWith = some pdfOptions ∧
    (caps.pdf pdfOptions = .error e → (convertToPdf caps).1 = .error (pdfFailMsg e)) := by
  have hloop2 := renderLoop_ok caps.renderDiagram
    ((extractMermaidDiagrams content).map
      (fun d => (⟨encodeURIComponent d.code, placeholderInner⟩ : Placeholder)))
    (pipeline_decodable content)
  refine ⟨rfl, ?_, ?_⟩
  · show (cleanup caps (convertBody caps).2).pdfCalledWith = _
    rw [(cleanup_preserves caps _).2.2.2.2.1]
    rcases hp : caps.pdf pdfOptions with u | e2
    · simp only [convertBody, hinit, readMarkdownFile, hread, generatePdf, hlaunch, hnew, hset,
        hwait, hloop2, hp]
    · simp only [convertBody, hinit, readMarkdownFile, hread, generatePdf, hlaunch, hnew, hset,
        hwait, hloop2, hp]
  · intro hp
    show (convertBody caps).1 = _
    simp only [convertBody, hinit, readMarkdownFile, hread, generatePdf, hlaunch, hnew, hset,
      hwait, hloop2, hp]

/-- Claim C7: on every exit path of `convertToPdf` the conversion's
outcome is exactly the body's outcome (teardown can never replace or
mask it, whatever the close calls return); every acquired page and
browser gets a close attempt; when the close calls succeed nothing is
left open; and a teardown error is logged to the warnings, never
re-thrown. -/
theorem claim_C7_lifecycle (caps : Caps) (x y : Except Str Unit) :
    (convertToPdf caps).1 = (convertBody caps).1 ∧
    (convertToPdf { caps with closePage := x, closeBrowser := y }).1 = (convertBody caps).1 ∧
    (((convertToPdf caps).2).pageSet = true → ((convertToPdf caps).2).pageCloseTried = true) ∧
    (((convertToPdf caps).2).browserSet = true → ((convertToPdf caps).2).browserCloseTried = true) ∧
    (caps.closePage = .ok () → ((convertToPdf caps).2).pageSet = true →
      ((convertToPdf caps).2).pageClosed = true) ∧
    (caps.closeBrowser = .ok () → ((convertToPdf caps).2).browserSet = true →
      ((convertToPdf caps).2).browserClosed = true) ∧
    (∀ e, caps.closePage = .error e → ((convertToPdf caps).2).pageSet = true →
      e ∈ ((convertToPdf caps).2).teardownWarnings) ∧
    (∀ e, caps.closeBrowser = .error e → ((convertToPdf caps).2).browserSet = true →
      e ∈ ((convertToPdf caps).2).teardownWarnings) := by
  have h2 : (convertToPdf caps).2 = cleanup caps (convertBody caps).2 := rfl
  have hpres := cleanup_preserves caps (convertBody caps).2
  rw [h2]
  refine ⟨rfl, ?_, ?_, ?_, ?_, ?_, ?_, ?_⟩
  · show (convertBody { caps with closePage := x, closeBrowser := y }).1 = _
    rw [convertBody_close_irrel]
  · intro h
    rw [hpres.2.1] at h
    exact cleanup_pageCloseTried caps _ h
  · intro h
    rw [hpres.1] at h
    exact cleanup_browserCloseTried caps _ h
  · intro hok h
    rw [hpres.2.1] at h
    exact cleanup_pageClosed caps _ hok h
  · intro hok h
    rw [hpres.1] at h
    exact cleanup_browserClosed caps _ hok h
  · intro e he h
    rw [hpres.2.1] at h
    exact cleanup_warn_page caps _ he h
  · intro e he h
    rw [hpres.1] at h
    exact cleanup_warn_browser caps _ he h

/-- Claim C2, witness: the demonstration run (two diagrams, one failing)
completes with total 2, rendered 1, failed 1, and writes the artifact. -/
theorem claim_C2_render_isolation_witness :
    (convertToPdf demoCaps).1 = .ok ⟨2, 1, 1⟩ ∧
    ((convertToPdf demoCaps).2).artifactWritten = true := by
  have h := claim_C2_render_isolation demoCaps (strOf "") demoContent demoPlaceholders
    (by decide) rfl rfl rfl rfl (fun _ => rfl) rfl (fun _ => rfl)
  exact ⟨h.2.2.2.2.1, h.2.2.2.2.2⟩

/-- Claim C6, witness: a run whose renderer wait times out returns the
single wrapped error after attempting teardown, with no artifact. -/
theorem claim_C6_wait_timeout_fatal_witness :
    (convertToPdf timeoutCaps).1 =
      .error (pdfFailMsg (strOf "waiting for function failed: timeout 10000ms exceeded")) ∧
    ((convertToPdf timeoutCaps).2).waitTimeoutUsed = some 10000 ∧
    ((convertToPdf timeoutCaps).2).artifactWritten = false ∧
    ((convertToPdf timeoutCaps).2).pageCloseTried = true ∧
    ((convertToPdf timeoutCaps).2).browserCloseTried = true := by
  have h := claim_C6_wait_timeout_fatal timeoutCaps demoContent
    (strOf "waiting for function failed: timeout 10000ms exceeded")
    rfl rfl rfl rfl (fun _ => rfl) rfl
  exact ⟨h.2.1, h.2.2.1, h.2.2.2.1, h.2.2.2.2.1, h.2.2.2.2.2⟩

/-- Claim C9, witness: a run whose serialization fails still records the
fixed options and returns the wrapped cause. -/
theorem claim_C9_pdf_emission_witness :
    ((convertToPdf pdfFailCaps).2).pdfCalledWith = some pdfOptions ∧
    (convertToPdf pdfFailCaps).1 = .error (pdfFailMsg (strOf "disk full")) := by
  have h := claim_C9_pdf_emission pdfFailCaps demoContent (strOf "disk full")
    rfl rfl rfl rfl (fun _ => rfl) rfl
  exact ⟨h.2.1, h.2.2 rfl⟩

/-- Claim C7, witness: the demonstration run closes both acquired
resources and its outcome equals the body's outcome. -/
theorem claim_C7_lifecycle_witness :
    (convertToPdf demoCaps).1 = (convertBody demoCaps).1 ∧
    ((convertToPdf demoCaps).2).pageCloseTried = true ∧
    ((convertToPdf demoCaps).2).pageClosed = true ∧
    ((convertToPdf demoCaps).2).browserClosed = true := by
  have h := claim_C7_lifecycle demoCaps (.ok ()) (.ok ())
  exact ⟨h.1, h.2.2.1 (by decide), h.2.2.2.2.1 rfl (by decide), h.2.2.2.2.2.1 rfl (by decide)⟩

end MMPdf
